import Mathlib

/-!
Shallow embedding of the Krcah bone-enhancement core: the per-voxel Scalar
Functor, the Parameter Estimator, the composite
`KrcahEigenToScalarImageFilter` from
`src/include/itkKrcahEigenToScalarImageFilter.h`, and the command-line
driver from `src/unnamed/part_000`.  Real pixel values are embedded as
rationals; a division whose denominator is zero is represented by `none`
(the NaN/Inf outcome), so a function that always returns `some` performs
only guarded divisions.
-/

namespace BoneEnhancement

/-- An eigenvalue triple at one voxel, sorted by ascending magnitude
per the design contract. -/
structure EigenVoxel where
  l1 : ℚ
  l2 : ℚ
  l3 : ℚ
deriving DecidableEq

/-- The calibration constants computed by one estimation run. -/
structure CalibrationParameters where
  alpha : ℚ
  beta : ℚ
  gamma : ℚ
deriving DecidableEq

/-- Polarity selector: enhance bright structures vs dark structures. -/
inductive Polarity where
  | bright
  | dark
deriving DecidableEq

/-- Flip the polarity selector. -/
def flipPolarity : Polarity → Polarity
  | .bright => .dark
  | .dark => .bright

/-- Componentwise negation of an eigenvalue triple. -/
def negVoxel (v : EigenVoxel) : EigenVoxel :=
  ⟨-v.l1, -v.l2, -v.l3⟩

/-- Modelled from the spec (the functor source,
itkKrcahEigenToScalarFunctorImageFilter.h, is not under src/): step 1 of
the Scalar Functor — if enhancing dark structures, negate the eigenvalues
relative to the bright-structure convention, so the same downstream
formula applies to both polarities. -/
def applyPolarity (p : Polarity) (v : EigenVoxel) : EigenVoxel :=
  match p with
  | .bright => v
  | .dark => negVoxel v

/-- Division as the machine performs it: a zero denominator yields `none`,
representing the NaN/Inf outcome the code must never reach. -/
def fdiv (a b : ℚ) : Option ℚ :=
  if b = 0 then none else some (a / b)

/-- Modelled from the spec: a guarded eigenvalue ratio (functor step 4) —
a zero denominator is substituted by the given neutral ratio rather than
divided through. -/
def guardedRatio (num den neutral : ℚ) : Option ℚ :=
  if den = 0 then some neutral else fdiv num den

/-- Modelled from the spec: a sigmoid-like penalty term, close to 1 when
the deviation `r` is small, controlled by one calibration constant `c`;
a zero constant resolves to the neutral term 0 instead of dividing by
zero. -/
def lowPassTerm (r c : ℚ) : Option ℚ :=
  if c = 0 then some 0 else fdiv (c * c) (r * r + c * c)

/-- Modelled from the spec: a sigmoid-like noise-suppression term, close
to 1 when the accumulated magnitude `r` is large, controlled by one
calibration constant `c`; a zero constant resolves to the neutral term 0
instead of dividing by zero. -/
def highPassTerm (r c : ℚ) : Option ℚ :=
  if c = 0 then some 0 else fdiv (r * r) (r * r + c * c)

/-- Modelled from the spec: steps 2–5 of the Scalar Functor in the
bright-structure convention.  Sign gate on the two largest-magnitude
eigenvalues (short-circuit to the neutral value 0), then three
multiplicative sigmoid-like terms over guarded ratios, finally scaled by
the magnitude of the largest eigenvalue. -/
def krcahCombine (cp : CalibrationParameters) (w : EigenVoxel) : Option ℚ :=
  if 0 < w.l2 ∧ 0 < w.l3 then
    Option.bind (guardedRatio |w.l2| |w.l3| 1) fun rSheet =>
    Option.bind (guardedRatio |w.l1| |w.l3| 0) fun rBlob =>
    Option.bind (highPassTerm (|w.l1| + |w.l2| + |w.l3|) cp.alpha) fun tAlpha =>
    Option.bind (lowPassTerm (1 - rSheet) cp.beta) fun tBeta =>
    Option.bind (lowPassTerm rBlob cp.gamma) fun tGamma =>
    some (|w.l3| * tAlpha * tBeta * tGamma)
  else
    some 0

/-- Modelled from the spec: the Scalar Functor — apply the polarity
convention, then the bright-convention combination. -/
def krcahFunctor (p : Polarity) (cp : CalibrationParameters) (v : EigenVoxel) : Option ℚ :=
  krcahCombine cp (applyPolarity p v)

/-- The two calibration strategies (`KrcahImplementationType` in the
source headers). -/
inductive KrcahImplementationType where
  | UseImplementationParameters
  | UseJournalArticleParameters
deriving DecidableEq

/-- Modelled from the spec (the estimator source,
itkKrcahEigenToScalarParameterEstimationImageFilter.h, is not under
src/): one accumulation step of the running per-channel maxima of
absolute eigenvalues. -/
def maximaStep (m : ℚ × ℚ × ℚ) (v : EigenVoxel) : ℚ × ℚ × ℚ :=
  (max m.1 |v.l1|, max m.2.1 |v.l2|, max m.2.2 |v.l3|)

/-- Modelled from the spec: the per-channel maxima of absolute
eigenvalues over the scanned voxels, accumulated from 0 in one linear
pass. -/
def channelMaxima (vs : List EigenVoxel) : ℚ × ℚ × ℚ :=
  vs.foldl maximaStep (0, 0, 0)

/-- Modelled from the spec: the fixed non-negative fractions each
strategy applies to the accumulated per-channel maxima; the two
strategies combine the same statistics with different coefficients. -/
def strategyFractions : KrcahImplementationType → ℚ × ℚ × ℚ
  | .UseImplementationParameters => (1 / 2, 1 / 2, 1 / 4)
  | .UseJournalArticleParameters => (1 / 2, 1 / 2, 1 / 2)

/-- Modelled from the spec: the voxels participating in estimation —
every voxel when no mask is supplied, otherwise exactly the voxels whose
mask label differs from the configured background label. -/
def selectedVoxels (vol : List EigenVoxel) (mask : Option (List ℕ))
    (background : ℕ) : List EigenVoxel :=
  match mask with
  | none => vol
  | some labels =>
      ((vol.zip labels).filter (fun x => x.2 != background)).map Prod.fst

/-- Modelled from the spec: the Parameter Estimator — accumulate
per-channel maxima over the participating voxels and scale them by the
selected strategy's fractions. -/
def estimateParameters (strategy : KrcahImplementationType)
    (vol : List EigenVoxel) (mask : Option (List ℕ)) (background : ℕ) :
    CalibrationParameters :=
  let m := channelMaxima (selectedVoxels vol mask background)
  let f := strategyFractions strategy
  ⟨f.1 * m.1, f.2.1 * m.2.1, f.2.2 * m.2.2⟩

/-- Configuration state of the parameter-estimation sub-filter, per the
configuration surface forwarded to it by
src/include/itkKrcahEigenToScalarImageFilter.h (its own source is not
under src/; modelled from the spec). -/
structure ParameterEstimationFilterState where
  maskImage : Option (List ℕ)
  backgroundValue : ℕ
  parameterSet : KrcahImplementationType
deriving DecidableEq

/-- Configuration state of the unary functor sub-filter, per the
configuration surface forwarded to it by
src/include/itkKrcahEigenToScalarImageFilter.h (its own source is not
under src/; modelled from the spec). -/
structure UnaryFunctorFilterState where
  alpha : ℚ
  beta : ℚ
  gamma : ℚ
  enhanceType : Polarity
deriving DecidableEq

/-- The composite filter of
src/include/itkKrcahEigenToScalarImageFilter.h: it owns the
parameter-estimation sub-filter and the unary functor sub-filter. -/
structure KrcahEigenToScalarImageFilter where
  m_ParameterEstimationFilter : ParameterEstimationFilterState
  m_UnaryFunctorFilter : UnaryFunctorFilterState
deriving DecidableEq

/-- From the header (lines 73–76): forwards the mask image to the
parameter-estimation sub-filter. -/
def SetMaskImage (f : KrcahEigenToScalarImageFilter)
    (mask : Option (List ℕ)) : KrcahEigenToScalarImageFilter :=
  { f with m_ParameterEstimationFilter :=
      { f.m_ParameterEstimationFilter with maskImage := mask } }

/-- From the header (lines 83–86): forwards the background value to the
parameter-estimation sub-filter. -/
def SetBackgroundValue (f : KrcahEigenToScalarImageFilter)
    (back : ℕ) : KrcahEigenToScalarImageFilter :=
  { f with m_ParameterEstimationFilter :=
      { f.m_ParameterEstimationFilter with backgroundValue := back } }

/-- From the header (lines 93–96): forwards the parameter-set selector to
the parameter-estimation sub-filter. -/
def SetParameterSet (f : KrcahEigenToScalarImageFilter)
    (back : KrcahImplementationType) : KrcahEigenToScalarImageFilter :=
  { f with m_ParameterEstimationFilter :=
      { f.m_ParameterEstimationFilter with parameterSet := back } }

/-- From the header (lines 101–103): selects the implementation
parameter set on the parameter-estimation sub-filter. -/
def SetParameterSetToImplementation (f : KrcahEigenToScalarImageFilter) :
    KrcahEigenToScalarImageFilter :=
  { f with m_ParameterEstimationFilter :=
      { f.m_ParameterEstimationFilter with
          parameterSet := .UseImplementationParameters } }

/-- From the header (lines 104–106): selects the journal-article
parameter set on the parameter-estimation sub-filter. -/
def SetParameterSetToJournalArticle (f : KrcahEigenToScalarImageFilter) :
    KrcahEigenToScalarImageFilter :=
  { f with m_ParameterEstimationFilter :=
      { f.m_ParameterEstimationFilter with
          parameterSet := .UseJournalArticleParameters } }

/-- From the header (lines 120–123): selects bright-structure enhancement
on the unary functor sub-filter. -/
def SetEnhanceBrightObjects (f : KrcahEigenToScalarImageFilter) :
    KrcahEigenToScalarImageFilter :=
  { f with m_UnaryFunctorFilter :=
      { f.m_UnaryFunctorFilter with enhanceType := .bright } }

/-- From the header (lines 124–127): selects dark-structure enhancement
on the unary functor sub-filter. -/
def SetEnhanceDarkObjects (f : KrcahEigenToScalarImageFilter) :
    KrcahEigenToScalarImageFilter :=
  { f with m_UnaryFunctorFilter :=
      { f.m_UnaryFunctorFilter with enhanceType := .dark } }

/-- From the header (lines 109–111): reads α from the unary functor
sub-filter. -/
def GetAlpha (f : KrcahEigenToScalarImageFilter) : ℚ :=
  f.m_UnaryFunctorFilter.alpha

/-- From the header (lines 112–114): reads β from the unary functor
sub-filter. -/
def GetBeta (f : KrcahEigenToScalarImageFilter) : ℚ :=
  f.m_UnaryFunctorFilter.beta

/-- From the header (lines 115–117): reads γ from the unary functor
sub-filter. -/
def GetGamma (f : KrcahEigenToScalarImageFilter) : ℚ :=
  f.m_UnaryFunctorFilter.gamma

/-- The eigenvalue-ordering contract of the abstract base class
(itkEigenToScalarImageFilter.h is not under src/; modelled from the
spec's ordering contract). -/
inductive EigenValueOrderType where
  | OrderByValue
  | OrderByMagnitude
deriving DecidableEq

/-- From the header (lines 67–70): the filter explicitly states that its
eigenvalues are ordered by magnitude. -/
def GetEigenValueOrder (_f : KrcahEigenToScalarImageFilter) :
    EigenValueOrderType :=
  EigenValueOrderType.OrderByMagnitude

/-- Modelled from the spec: GenerateData (its body lives in
itkKrcahEigenToScalarImageFilter.hxx, which is not under src/) — run the
estimation pass with the estimation sub-filter's configuration, transfer
the computed (α, β, γ) to the unary functor sub-filter, then evaluate the
functor at every voxel with those constants. -/
def GenerateData (f : KrcahEigenToScalarImageFilter)
    (input : List EigenVoxel) :
    KrcahEigenToScalarImageFilter × List (Option ℚ) :=
  let est := f.m_ParameterEstimationFilter
  let cp := estimateParameters est.parameterSet input est.maskImage
    est.backgroundValue
  let uf : UnaryFunctorFilterState :=
    { alpha := cp.alpha, beta := cp.beta, gamma := cp.gamma,
      enhanceType := f.m_UnaryFunctorFilter.enhanceType }
  (⟨est, uf⟩, input.map (krcahFunctor uf.enhanceType cp))

/-- The command-line parameters main reads from argv
(src/unnamed/part_000 lines 56–70). -/
structure CliArgs where
  inputFileName : String
  outputPreprocessedFileName : String
  outputMeasureFileName : String
  enhanceBrightObjects : Int
  parameterSetToImplement : Int
  sigmaArray : List ℚ
deriving DecidableEq

/-- Modelled from the spec: the state of a freshly created Krcah filter.
The driver creates the filter with New() (src/unnamed/part_000 line 128)
and never calls any setter on it, so every invocation hands the pipeline
this same constant state. -/
def defaultKrcahFilter : KrcahEigenToScalarImageFilter :=
  ⟨⟨none, 0, .UseJournalArticleParameters⟩, ⟨0, 0, 0, .bright⟩⟩

/-- Everything main feeds the measure pipeline that determines the value
written to the OutputMeasure file (src/unnamed/part_000 lines 107–143):
the input image, the sigma array, and the Krcah filter state. -/
structure MeasurePipelineInput where
  inputFileName : String
  sigmaArray : List ℚ
  krcahFilter : KrcahEigenToScalarImageFilter
deriving DecidableEq

/-- From src/unnamed/part_000 (main, lines 107–143): the measure pipeline
receives the input read from argv[1], the sigma array parsed from
argv[6..], and the default-constructed Krcah filter; the flags parsed
from argv[4] and argv[5] are used only in the printed banner and are
never applied to any filter. -/
def measurePipelineInput (a : CliArgs) : MeasurePipelineInput :=
  ⟨a.inputFileName, a.sigmaArray, defaultKrcahFilter⟩

/-! Helper lemmas. -/

theorem guardedRatio_isSome (num den neutral : ℚ) :
    ∃ r : ℚ, guardedRatio num den neutral = some r := by
  unfold guardedRatio fdiv
  split
  · exact ⟨neutral, rfl⟩
  · exact ⟨num / den, rfl⟩

theorem sq_add_sq_ne_zero (r c : ℚ) (hc : c ≠ 0) : r * r + c * c ≠ 0 :=
  ne_of_gt (add_pos_of_nonneg_of_pos (mul_self_nonneg r) (mul_self_pos.mpr hc))

theorem lowPassTerm_isSome (r c : ℚ) : ∃ t : ℚ, lowPassTerm r c = some t := by
  unfold lowPassTerm fdiv
  split
  · exact ⟨0, rfl⟩
  · rename_i h
    rw [if_neg (sq_add_sq_ne_zero r c h)]
    exact ⟨c * c / (r * r + c * c), rfl⟩

theorem highPassTerm_isSome (r c : ℚ) : ∃ t : ℚ, highPassTerm r c = some t := by
  unfold highPassTerm fdiv
  split
  · exact ⟨0, rfl⟩
  · rename_i h
    rw [if_neg (sq_add_sq_ne_zero r c h)]
    exact ⟨r * r / (r * r + c * c), rfl⟩

theorem krcahCombine_total (cp : CalibrationParameters) (w : EigenVoxel) :
    ∃ r : ℚ, krcahCombine cp w = some r := by
  unfold krcahCombine
  split
  · obtain ⟨a, ha⟩ := guardedRatio_isSome |w.l2| |w.l3| 1
    obtain ⟨b, hb⟩ := guardedRatio_isSome |w.l1| |w.l3| 0
    obtain ⟨c, hc⟩ := highPassTerm_isSome (|w.l1| + |w.l2| + |w.l3|) cp.alpha
    obtain ⟨d, hd⟩ := lowPassTerm_isSome (1 - a) cp.beta
    obtain ⟨e, he⟩ := lowPassTerm_isSome b cp.gamma
    rw [ha, Option.some_bind, hb, Option.some_bind, hc, Option.some_bind,
      hd, Option.some_bind, he, Option.some_bind]
    exact ⟨|w.l3| * c * d * e, rfl⟩
  · exact ⟨0, rfl⟩

theorem applyPolarity_flip_neg (p : Polarity) (v : EigenVoxel) :
    applyPolarity (flipPolarity p) (negVoxel v) = applyPolarity p v := by
  cases p <;> cases v <;> simp [applyPolarity, flipPolarity, negVoxel]

theorem foldl_maximaStep_nonneg (vs : List EigenVoxel) (init : ℚ × ℚ × ℚ)
    (h1 : 0 ≤ init.1) (h2 : 0 ≤ init.2.1) (h3 : 0 ≤ init.2.2) :
    0 ≤ (vs.foldl maximaStep init).1 ∧ 0 ≤ (vs.foldl maximaStep init).2.1 ∧
      0 ≤ (vs.foldl maximaStep init).2.2 := by
  induction vs generalizing init with
  | nil => exact ⟨h1, h2, h3⟩
  | cons v t ih =>
      simp only [List.foldl_cons]
      exact ih (maximaStep init v) (le_max_of_le_left h1)
        (le_max_of_le_left h2) (le_max_of_le_left h3)

theorem selectedVoxels_allBackground (vol : List EigenVoxel)
    (labels : List ℕ) (background : ℕ) (h : ∀ l ∈ labels, l = background) :
    selectedVoxels vol (some labels) background = [] := by
  have hfil : (vol.zip labels).filter (fun x => x.2 != background) = [] := by
    rw [List.filter_eq_nil_iff]
    intro a ha
    have ha2 : a.2 ∈ labels := (List.of_mem_zip ha).2
    simp [h a.2 ha2]
  have hdef : selectedVoxels vol (some labels) background =
      ((vol.zip labels).filter (fun x => x.2 != background)).map Prod.fst :=
    rfl
  rw [hdef, hfil, List.map_nil]

/-! Claim theorems. -/

/-- C1: for every finite input eigenvalue triple and every non-negative
calibration triple (including α = β = γ = 0), the Scalar Functor returns
a value, never the NaN/Inf outcome `none`: every internal division is
guarded, so zero eigenvalues and zero denominators resolve to defined
neutral outputs. -/
theorem krcahFunctor_total (p : Polarity) (cp : CalibrationParameters)
    (v : EigenVoxel) (_ha : 0 ≤ cp.alpha) (_hb : 0 ≤ cp.beta)
    (_hg : 0 ≤ cp.gamma) :
    ∃ r : ℚ, krcahFunctor p cp v = some r :=
  krcahCombine_total cp (applyPolarity p v)

theorem krcahFunctor_total_witness :
    ∃ r : ℚ, krcahFunctor .bright ⟨0, 0, 0⟩ ⟨1, -2, 3⟩ = some r :=
  krcahFunctor_total .bright ⟨0, 0, 0⟩ ⟨1, -2, 3⟩ le_rfl le_rfl le_rfl

/-- C2: for a fixed polarity, whenever the two largest-magnitude
eigenvalues of the input triple do not satisfy the sign relationship that
polarity requires, the Scalar Functor short-circuits to the neutral value
0, for every calibration triple. -/
theorem krcahFunctor_sign_gate (p : Polarity) (cp : CalibrationParameters)
    (v : EigenVoxel)
    (h : ¬(0 < (applyPolarity p v).l2 ∧ 0 < (applyPolarity p v).l3)) :
    krcahFunctor p cp v = some 0 := by
  unfold krcahFunctor krcahCombine
  rw [if_neg h]

theorem krcahFunctor_sign_gate_witness :
    krcahFunctor .bright ⟨1, 1, 1⟩ ⟨-1, -10, -10⟩ = some 0 :=
  krcahFunctor_sign_gate .bright ⟨1, 1, 1⟩ ⟨-1, -10, -10⟩ (by decide)

/-- C3: after one GenerateData run, the accessors GetAlpha, GetBeta and
GetGamma of the composite filter return exactly the calibration constants
computed by that run's estimation pass (they read the unary functor
sub-filter, to which GenerateData transfers the estimated constants). -/
theorem getParameters_after_generateData
    (f : KrcahEigenToScalarImageFilter) (input : List EigenVoxel) :
    GetAlpha (GenerateData f input).1 =
      (estimateParameters f.m_ParameterEstimationFilter.parameterSet input
        f.m_ParameterEstimationFilter.maskImage
        f.m_ParameterEstimationFilter.backgroundValue).alpha ∧
    GetBeta (GenerateData f input).1 =
      (estimateParameters f.m_ParameterEstimationFilter.parameterSet input
        f.m_ParameterEstimationFilter.maskImage
        f.m_ParameterEstimationFilter.backgroundValue).beta ∧
    GetGamma (GenerateData f input).1 =
      (estimateParameters f.m_ParameterEstimationFilter.parameterSet input
        f.m_ParameterEstimationFilter.maskImage
        f.m_ParameterEstimationFilter.backgroundValue).gamma :=
  ⟨rfl, rfl, rfl⟩

/-- C4: GetEigenValueOrder of the composite filter always returns
OrderByMagnitude, whatever the filter's state: the ascending-magnitude
ordering is a declared contract, not something computed or re-validated
from the data. -/
theorem getEigenValueOrder_const (f : KrcahEigenToScalarImageFilter) :
    GetEigenValueOrder f = EigenValueOrderType.OrderByMagnitude :=
  rfl

/-- C5: for every input volume, every mask (or none) and either
calibration strategy, the Parameter Estimator returns a triple in which
each component is non-negative (and, being a rational, finite). -/
theorem estimateParameters_nonneg (s : KrcahImplementationType)
    (vol : List EigenVoxel) (mask : Option (List ℕ)) (background : ℕ) :
    0 ≤ (estimateParameters s vol mask background).alpha ∧
    0 ≤ (estimateParameters s vol mask background).beta ∧
    0 ≤ (estimateParameters s vol mask background).gamma := by
  obtain ⟨h1, h2, h3⟩ := foldl_maximaStep_nonneg
    (selectedVoxels vol mask background) (0, 0, 0) le_rfl le_rfl le_rfl
  unfold estimateParameters channelMaxima
  cases s <;>
    exact ⟨mul_nonneg (by norm_num [strategyFractions]) h1,
      mul_nonneg (by norm_num [strategyFractions]) h2,
      mul_nonneg (by norm_num [strategyFractions]) h3⟩

/-- C6: a mask whose background label matches every voxel leaves no
participating voxel, and the Parameter Estimator falls back to the
documented default α = β = γ = 0 instead of failing. -/
theorem estimateParameters_allBackground (s : KrcahImplementationType)
    (vol : List EigenVoxel) (labels : List ℕ) (background : ℕ)
    (h : ∀ l ∈ labels, l = background) :
    estimateParameters s vol (some labels) background = ⟨0, 0, 0⟩ := by
  unfold estimateParameters
  rw [selectedVoxels_allBackground vol labels background h]
  cases s <;> simp [channelMaxima, strategyFractions]

theorem estimateParameters_allBackground_witness :
    estimateParameters .UseImplementationParameters
      [⟨1, 2, 3⟩] (some [0]) 0 = ⟨0, 0, 0⟩ :=
  estimateParameters_allBackground .UseImplementationParameters
    [⟨1, 2, 3⟩] [0] 0 (by decide)

/-- C7: evaluating the Scalar Functor on the negated eigenvalue triple
with the polarity flipped yields exactly the same output as evaluating it
on the original triple under the original polarity. -/
theorem krcahFunctor_polarity_symmetry (p : Polarity)
    (cp : CalibrationParameters) (v : EigenVoxel) :
    krcahFunctor (flipPolarity p) cp (negVoxel v) = krcahFunctor p cp v := by
  unfold krcahFunctor
  rw [applyPolarity_flip_neg]

/-- C8: the Parameter Estimator is a deterministic function of its
inputs: two runs on equal volumes, equal masks and equal strategies
return identical calibration triples, with no hidden state. -/
theorem estimateParameters_deterministic (s₁ s₂ : KrcahImplementationType)
    (vol₁ vol₂ : List EigenVoxel) (m₁ m₂ : Option (List ℕ)) (b₁ b₂ : ℕ)
    (hs : s₁ = s₂) (hv : vol₁ = vol₂) (hm : m₁ = m₂) (hb : b₁ = b₂) :
    estimateParameters s₁ vol₁ m₁ b₁ = estimateParameters s₂ vol₂ m₂ b₂ := by
  subst hs
  subst hv
  subst hm
  subst hb
  rfl

theorem estimateParameters_deterministic_witness :
    estimateParameters .UseJournalArticleParameters [⟨1, 2, 3⟩] none 0 =
      estimateParameters .UseJournalArticleParameters [⟨1, 2, 3⟩] none 0 :=
  estimateParameters_deterministic .UseJournalArticleParameters
    .UseJournalArticleParameters [⟨1, 2, 3⟩] [⟨1, 2, 3⟩] none none 0 0
    rfl rfl rfl rfl

/-- C9: SetMaskImage, SetBackgroundValue, SetParameterSet,
SetParameterSetToImplementation and SetParameterSetToJournalArticle
forward only to the parameter-estimation sub-filter and leave the unary
functor sub-filter unchanged; conversely SetEnhanceBrightObjects and
SetEnhanceDarkObjects modify only the unary functor sub-filter and leave
the parameter-estimation sub-filter unchanged. -/
theorem setters_frame (f : KrcahEigenToScalarImageFilter)
    (mask : Option (List ℕ)) (back : ℕ) (ps : KrcahImplementationType) :
    (SetMaskImage f mask).m_UnaryFunctorFilter = f.m_UnaryFunctorFilter ∧
    (SetMaskImage f mask).m_ParameterEstimationFilter.maskImage = mask ∧
    (SetBackgroundValue f back).m_UnaryFunctorFilter = f.m_UnaryFunctorFilter ∧
    (SetBackgroundValue f back).m_ParameterEstimationFilter.backgroundValue = back ∧
    (SetParameterSet f ps).m_UnaryFunctorFilter = f.m_UnaryFunctorFilter ∧
    (SetParameterSet f ps).m_ParameterEstimationFilter.parameterSet = ps ∧
    (SetParameterSetToImplementation f).m_UnaryFunctorFilter = f.m_UnaryFunctorFilter ∧
    (SetParameterSetToJournalArticle f).m_UnaryFunctorFilter = f.m_UnaryFunctorFilter ∧
    (SetEnhanceBrightObjects f).m_ParameterEstimationFilter = f.m_ParameterEstimationFilter ∧
    (SetEnhanceDarkObjects f).m_ParameterEstimationFilter = f.m_ParameterEstimationFilter :=
  ⟨rfl, rfl, rfl, rfl, rfl, rfl, rfl, rfl, rfl, rfl⟩

/-- C10: in the CLI driver, the flags parsed from argv[4] and argv[5] are
never applied to the Krcah filter, so two command lines differing only in
those two positions hand the measure pipeline identical inputs and the
computed enhancement measure written to the output file is identical. -/
theorem driver_flags_no_effect (a₁ a₂ : CliArgs)
    (hin : a₁.inputFileName = a₂.inputFileName)
    (hsig : a₁.sigmaArray = a₂.sigmaArray) :
    measurePipelineInput a₁ = measurePipelineInput a₂ := by
  unfold measurePipelineInput
  rw [hin, hsig]

theorem driver_flags_no_effect_witness :
    measurePipelineInput
        ⟨"input.nii", "pre.nii", "measure.nii", 1, 1, [1, 2]⟩ =
      measurePipelineInput
        ⟨"input.nii", "pre.nii", "measure.nii", 0, 0, [1, 2]⟩ :=
  driver_flags_no_effect
    ⟨"input.nii", "pre.nii", "measure.nii", 1, 1, [1, 2]⟩
    ⟨"input.nii", "pre.nii", "measure.nii", 0, 0, [1, 2]⟩ rfl rfl

end BoneEnhancement
